import Mathlib

/-!
Verification of the web.go route-matching and reflective-dispatch engine
(`server.go`): route registration (`addRoute`), the route-scanning loop of
`routeHandler`, context detection (`requiresContext`), safe invocation
(`safelyCall`), and response coercion.

The Go regexp engine, the file system, and the reflect runtime are external
collaborators; they are embedded as abstract oracles (`Regex`, the
`tryServingFile` field of `Collaborators`, and `Handler.call`), while every
decision made by `server.go` itself is translated literally.
-/

namespace WebGo

/-- Go `reflect` types, as far as `requiresContext` inspects them:
`context` is the `web.Context` struct type (`contextType` in web.go),
`ptr t` a pointer type with element type `t` (`Kind() == reflect.Ptr`,
`Elem() = t`), and `other n` any further distinct type. -/
inductive GoType where
  | context : GoType
  | ptr : GoType → GoType
  | other : Nat → GoType
deriving DecidableEq

/-- The declared shape of a handler function: `params` lists its parameter
types in order, so `NumIn() = params.length` and `In(0) = params.head`. -/
structure HandlerType where
  params : List GoType
deriving DecidableEq

/-- Runtime values passed to and returned from handlers via `reflect.Value`:
a Go `string` (`Kind() == reflect.String`), a `[]byte`
(`Kind() == reflect.Slice` with `Elem().Kind() == reflect.Uint8`, bytes as
naturals below 256), the `*Context` reference `&ctx`, or a value of any
other kind. -/
inductive GoValue where
  | str : String → GoValue
  | bytes : List Nat → GoValue
  | ctxRef : GoValue
  | other : Nat → GoValue
deriving DecidableEq

/-- Outcome of `function.Call(args)`: either a list of return values, or a
fault (a `panic` raised inside the handler body, or the `reflect` runtime
argument-count/type-mismatch `panic`), carrying the fault value. -/
inductive CallOutcome where
  | ok : List GoValue → CallOutcome
  | fault : String → CallOutcome
deriving DecidableEq

/-- A handler as registered: its declared `reflect.Type` shape and the
semantics of calling it through `reflect.Value.Call`. -/
structure Handler where
  type : HandlerType
  call : List GoValue → CallOutcome

/-- A compiled regular expression (`*regexp.Regexp`), abstracted to the two
operations `routeHandler` uses: `MatchString` and `FindStringSubmatch`.
`findStringSubmatch s` is the list whose head is the whole (leftmost) match
and whose tail holds the capture groups in left-to-right order; it is `[]`
when there is no match (Go returns `nil`). -/
structure Regex where
  matchString : String → Bool
  findStringSubmatch : String → List String

/-- `route` from server.go: the pattern source `r`, the compiled regex `cr`,
the HTTP method, and the handler value. -/
structure Route where
  r : String
  cr : Regex
  method : String
  handler : Handler

/-- The fields of `ServerConfig` the dispatch core reads. The remaining
fields (`StaticDir`, `Addr`, `Port`, `CookieSecret`, `Profiler`) configure
external collaborators. -/
structure ServerConfig where
  recoverPanic : Bool

/-- The slice of the incoming `*http.Request` the dispatch core reads:
`req.Method` and `req.URL.Path`. -/
structure Request where
  method : String
  path : String

/-- External collaborators of `routeHandler`: `tryServingFile name` answers
whether the static-file resolver serves the asset `name` (and short-circuits
dispatch when it does). -/
structure Collaborators where
  tryServingFile : String → Bool

/-- In Go, `len` of a string counts UTF-8 bytes, which is
`String.utf8ByteSize`. -/
def goLen (s : String) : Nat :=
  s.utf8ByteSize

/-- The UTF-8 encoding of one character, mirroring the size classification
of `Char.utf8Size`: 1-byte ASCII, then 2-, 3- and 4-byte sequences. -/
def charUtf8Bytes (c : Char) : List Nat :=
  let n := c.toNat
  if c.utf8Size = 1 then [n]
  else if c.utf8Size = 2 then
    [0xC0 + n / 0x40, 0x80 + n % 0x40]
  else if c.utf8Size = 3 then
    [0xE0 + n / 0x1000, 0x80 + n / 0x40 % 0x40, 0x80 + n % 0x40]
  else
    [0xF0 + n / 0x40000, 0x80 + n / 0x1000 % 0x40, 0x80 + n / 0x40 % 0x40, 0x80 + n % 0x40]

/-- UTF-8 bytes of a character list, in order. -/
def strBytesList : List Char → List Nat
  | [] => []
  | c :: cs => charUtf8Bytes c ++ strBytesList cs

/-- The Go conversion `[]byte(s)`: the UTF-8 bytes of the string. -/
def strBytes (s : String) : List Nat :=
  strBytesList s.data

/-- `requiresContext` from server.go: whether the declared first
parameter is a pointer whose element type is exactly `contextType`.
`NumIn() == 0` yields `false`; a non-pointer first argument yields `false`;
a pointer first argument yields `true` exactly when its element type equals
the context type. -/
def requiresContext (handlerType : HandlerType) : Bool :=
  match handlerType.params with
  | [] => false
  | a0 :: _ =>
    match a0 with
    | GoType.ptr e => e = GoType.context
    | _ => false

/-- The argument list assembled in `routeHandler` before the call: `&ctx` is
prepended iff `requiresContext` holds, then each element of `match[1:]` (the
capture groups, the whole-match group excluded) is appended in order as a
string value. -/
def bindArgs (handlerType : HandlerType) (mtch : List String) : List GoValue :=
  (if requiresContext handlerType then [GoValue.ctxRef] else [])
    ++ (mtch.drop 1).map GoValue.str

/-- Result of `safelyCall`: `returned resp` is `(resp, nil)` from a normal
call; `recovered e` is `(nil, e)` after the deferred `recover` caught fault
`e` with `RecoverPanic` enabled (the response slice is `nil`); `propagated e`
is the re-raised fault escaping `safelyCall` when `RecoverPanic` is
disabled. -/
inductive SafeCallResult where
  | returned : List GoValue → SafeCallResult
  | recovered : String → SafeCallResult
  | propagated : String → SafeCallResult
deriving DecidableEq

/-- `safelyCall` from server.go: run `function.Call(args)` under a deferred
`recover`. A normal return passes the results through with a nil fault; a
fault is re-raised when `RecoverPanic` is disabled, and otherwise swallowed,
logged with the available call-stack frames, and reported with a `nil`
result slice. -/
def safelyCall (recoverPanic : Bool) (function : Handler) (args : List GoValue) :
    SafeCallResult :=
  match function.call args with
  | CallOutcome.ok resp => SafeCallResult.returned resp
  | CallOutcome.fault e =>
    if recoverPanic then SafeCallResult.recovered e else SafeCallResult.propagated e

/-- The coercion of `ret[0]` to a byte payload in `routeHandler`: a string
kind becomes its UTF-8 bytes (`[]byte(sval.String())`), a `[]byte` passes
through unchanged, and any other kind leaves `content` as the `nil` slice
(the empty payload). -/
def coerceContent : GoValue → List Nat
  | GoValue.str s => strBytes s
  | GoValue.bytes b => b
  | _ => []

/-- Observable outcome of one dispatch. `aborted status body` records
`ctx.Abort(status, body)`; `wroteBody n content` records setting the
`Content-Length` header to the decimal rendering of `n` followed by
`Write(content)`; `wroteNothing` records a handler with no return values
(nothing further is written, no `Content-Length` header); `escaped e`
records a fault propagating out of the dispatch uncontained. -/
inductive DispatchResult where
  | staticServed : String → DispatchResult
  | indexServed : String → DispatchResult
  | aborted : Nat → String → DispatchResult
  | wroteNothing : DispatchResult
  | wroteBody : Nat → List Nat → DispatchResult
  | escaped : String → DispatchResult
deriving DecidableEq

/-- The body of one matched iteration of the route loop, after the three
skip checks have passed: bind the arguments, call through `safelyCall`, on a
reported fault run `ctx.Abort(500, "Server Error")` (the result slice is
then `nil`, so the loop returns without writing more), on zero return
values return without writing, and otherwise coerce `ret[0]` and write the
`Content-Length` header and the payload. -/
def invokeRoute (recoverPanic : Bool) (route : Route) (mtch : List String) :
    DispatchResult :=
  let args := bindArgs route.handler.type mtch
  match safelyCall recoverPanic route.handler args with
  | SafeCallResult.propagated e => DispatchResult.escaped e
  | SafeCallResult.recovered _ => DispatchResult.aborted 500 "Server Error"
  | SafeCallResult.returned ret =>
    match ret with
    | [] => DispatchResult.wroteNothing
    | sval :: _ =>
      let content := coerceContent sval
      DispatchResult.wroteBody content.length content

/-- The method skip condition of the route loop, verbatim:
`req.Method != route.method && !(req.Method == "HEAD" && route.method == "GET")`. -/
def methodSkipped (reqMethod routeMethod : String) : Bool :=
  reqMethod != routeMethod && !(reqMethod == "HEAD" && routeMethod == "GET")

/-- The `for` loop of `routeHandler` over `s.routes`, with `k` the index of
the current route. A route is skipped when its method does not match, when
`cr.MatchString(requestPath)` is false, or when the length of `match[0]`
(the first submatch) differs from the length of the request path; the first
route passing all three checks is invoked and the loop returns, recording
the index. `none` means the loop fell through. -/
def routeScan (recoverPanic : Bool) (reqMethod requestPath : String) (k : Nat) :
    List Route → Option (Nat × DispatchResult)
  | [] => none
  | route :: rest =>
    if methodSkipped reqMethod route.method then
      routeScan recoverPanic reqMethod requestPath (k + 1) rest
    else if !(route.cr.matchString requestPath) then
      routeScan recoverPanic reqMethod requestPath (k + 1) rest
    else if goLen ((route.cr.findStringSubmatch requestPath).headD "") ≠ goLen requestPath then
      routeScan recoverPanic reqMethod requestPath (k + 1) rest
    else
      some (k, invokeRoute recoverPanic route (route.cr.findStringSubmatch requestPath))

/-- `path.Join(dir, name)` as the dispatcher uses it to form the index
fallback names. (In Go, `path.Join` additionally cleans the joined path; the
static-file resolver is an abstract collaborator here, so the cleaned and
uncleaned names are interchangeable observables.) -/
def pathJoin (dir name : String) : String :=
  dir ++ "/" ++ name

/-- `routeHandler` from server.go, from the static-file short-circuit on.
For a GET or HEAD request the static resolver is tried on the request path
first; then the route loop runs; when it falls through, the resolver is
tried on `path.Join(requestPath, "index.html")` and then
`path.Join(requestPath, "index.htm")` — again only for GET or HEAD — and
finally `ctx.Abort(404, "Page not found")` runs. (Logging, form parsing and
the default `Server`/`Date`/`Content-Type` headers touch only external
collaborators and are not observables of this model.) -/
def routeHandler (cfg : ServerConfig) (env : Collaborators) (routes : List Route)
    (req : Request) : DispatchResult :=
  let requestPath := req.path
  if (req.method == "GET" || req.method == "HEAD") && env.tryServingFile requestPath then
    DispatchResult.staticServed requestPath
  else
    match routeScan cfg.recoverPanic req.method requestPath 0 routes with
    | some (_, res) => res
    | none =>
      if (req.method == "GET" || req.method == "HEAD")
          && env.tryServingFile (pathJoin requestPath "index.html") then
        DispatchResult.indexServed (pathJoin requestPath "index.html")
      else if (req.method == "GET" || req.method == "HEAD")
          && env.tryServingFile (pathJoin requestPath "index.htm") then
        DispatchResult.indexServed (pathJoin requestPath "index.htm")
      else
        DispatchResult.aborted 404 "Page not found"

/-- `addRoute` from server.go, with `compile` abstracting `regexp.Compile`
(`none` models a compile error). On a compile error the route table is
returned unchanged (the failure is only logged; no error reaches the
caller); otherwise one `route` record is appended at the end. (The two
source branches over `handler.(reflect.Value)` build the same record from
the same handler value and coincide here.) -/
def addRoute (compile : String → Option Regex) (routes : List Route)
    (r : String) (method : String) (handler : Handler) : List Route :=
  match compile r with
  | none => routes
  | some cr => routes ++ [{ r := r, cr := cr, method := method, handler := handler }]

/-! Concrete fixtures: oracles and routes used to evaluate the development
on closed inputs. -/

/-- The declared shape of a plain `func(val string) string` handler. -/
def plainStringType : HandlerType :=
  { params := [GoType.other 0] }

/-- The declared shape of a context-aware `func(ctx *Context, val string)`
handler. -/
def ctxStringType : HandlerType :=
  { params := [GoType.ptr GoType.context, GoType.other 0] }

/-- A `func(val string) string` handler echoing its capture argument. -/
def echoHandler : Handler where
  type := plainStringType
  call args :=
    match args with
    | [GoValue.str s] => CallOutcome.ok [GoValue.str s]
    | _ => CallOutcome.fault "reflect: Call with wrong arguments"

/-- A handler whose body always raises a fault. -/
def crashingHandler : Handler where
  type := plainStringType
  call _ := CallOutcome.fault "boom"

/-- A handler with no return values. -/
def silentHandler : Handler where
  type := plainStringType
  call _ := CallOutcome.ok []

/-- A handler whose first return value is of int kind, with a second value
after it. -/
def intHandler : Handler where
  type := plainStringType
  call _ := CallOutcome.ok [GoValue.other 7, GoValue.str "ignored"]

/-- A handler returning the fixed multi-byte string "héllo". -/
def unicodeHandler : Handler where
  type := plainStringType
  call _ := CallOutcome.ok [GoValue.str "héllo"]

/-- A handler returning a fixed byte slice. -/
def bytesHandler : Handler where
  type := plainStringType
  call _ := CallOutcome.ok [GoValue.bytes [1, 2, 3]]

/-- A handler returning two values, a string first. -/
def twoValueHandler : Handler where
  type := plainStringType
  call _ := CallOutcome.ok [GoValue.str "first", GoValue.other 3]

/-- Oracle for the compiled pattern "/hello/(.+)", on the inputs the
fixtures exercise. -/
def helloRegex : Regex where
  matchString s := s == "/hello/world"
  findStringSubmatch s :=
    if s == "/hello/world" then ["/hello/world", "world"] else []

/-- Oracle for the unanchored pattern "/hel": its leftmost match inside
"/hello" is the strict prefix "/hel". -/
def prefRegex : Regex where
  matchString s := s == "/hello" || s == "/hel"
  findStringSubmatch s :=
    if s == "/hello" || s == "/hel" then ["/hel"] else []

/-- Oracle for the catch-all pattern "/(.*)": the whole path matches and
the capture drops the leading slash. -/
def catchAllRegex : Regex where
  matchString _ := true
  findStringSubmatch s := [s, s.drop 1]

/-- Oracle for the literal pattern "/specific". -/
def specificRegex : Regex where
  matchString s := s == "/specific"
  findStringSubmatch s := if s == "/specific" then ["/specific"] else []

/-- GET route for "/hello/(.+)" with the echo handler. -/
def helloRoute : Route :=
  { r := "/hello/(.+)", cr := helloRegex, method := "GET", handler := echoHandler }

/-- GET route for the prefix-only pattern "/hel". -/
def prefRoute : Route :=
  { r := "/hel", cr := prefRegex, method := "GET", handler := echoHandler }

/-- POST route for "/hello/(.+)". -/
def postHelloRoute : Route :=
  { r := "/hello/(.+)", cr := helloRegex, method := "POST", handler := echoHandler }

/-- GET route for the catch-all pattern, registered before more specific
routes. -/
def catchAllRoute : Route :=
  { r := "/(.*)", cr := catchAllRegex, method := "GET", handler := echoHandler }

/-- GET route for the literal pattern "/specific". -/
def specificRoute : Route :=
  { r := "/specific", cr := specificRegex, method := "GET", handler := echoHandler }

/-- GET catch-all route whose handler always faults. -/
def crashRoute : Route :=
  { r := "/(.*)", cr := catchAllRegex, method := "GET", handler := crashingHandler }

/-- GET catch-all route whose handler returns nothing. -/
def silentRoute : Route :=
  { r := "/(.*)", cr := catchAllRegex, method := "GET", handler := silentHandler }

/-- GET catch-all route whose handler returns an int first. -/
def intRoute : Route :=
  { r := "/(.*)", cr := catchAllRegex, method := "GET", handler := intHandler }

/-- GET catch-all route whose handler returns the multi-byte string. -/
def unicodeRoute : Route :=
  { r := "/(.*)", cr := catchAllRegex, method := "GET", handler := unicodeHandler }

/-- GET catch-all route whose handler returns a byte slice. -/
def bytesRoute : Route :=
  { r := "/(.*)", cr := catchAllRegex, method := "GET", handler := bytesHandler }

/-- GET catch-all route whose handler returns two values. -/
def twoValueRoute : Route :=
  { r := "/(.*)", cr := catchAllRegex, method := "GET", handler := twoValueHandler }

/-- A static-file resolver that serves nothing. -/
def noFiles : Collaborators :=
  { tryServingFile := fun _ => false }

/-- A static-file resolver that serves every name. -/
def allFiles : Collaborators :=
  { tryServingFile := fun _ => true }

/-- A compile oracle failing on the single pattern "(" and otherwise
producing the catch-all oracle. -/
def compileOracle (p : String) : Option Regex :=
  if p == "(" then none else some catchAllRegex

/-! Helper lemmas shared by the claim theorems. -/

/-- One character encodes to as many bytes as `Char.utf8Size` announces. -/
theorem charUtf8Bytes_length (c : Char) : (charUtf8Bytes c).length = c.utf8Size := by
  have h1 := Char.utf8Size_pos c
  have h4 := Char.utf8Size_le_four c
  unfold charUtf8Bytes
  by_cases e1 : c.utf8Size = 1
  · simp [e1]
  · by_cases e2 : c.utf8Size = 2
    · simp [e1, e2]
    · by_cases e3 : c.utf8Size = 3
      · simp [e1, e2, e3]
      · have e4 : c.utf8Size = 4 := by omega
        simp [e1, e2, e3, e4]

/-- The encoded byte list of a string has exactly the Go byte length of the
string. -/
theorem strBytes_length (s : String) : (strBytes s).length = goLen s := by
  cases s with
  | mk cs =>
    show (strBytesList cs).length = String.utf8ByteSize ⟨cs⟩
    simp only [String.utf8ByteSize_mk]
    induction cs with
    | nil => simp [strBytesList]
    | cons c cs ih =>
      simp [strBytesList, charUtf8Bytes_length, ih]
      omega

/-- The route loop never reports an index below its starting index. -/
theorem routeScan_index_ge (recoverPanic : Bool) (reqMethod requestPath : String) :
    ∀ (l : List Route) (k i : Nat) (res : DispatchResult),
      routeScan recoverPanic reqMethod requestPath k l = some (i, res) → k ≤ i := by
  intro l
  induction l with
  | nil =>
    intro k i res h
    simp [routeScan] at h
  | cons route rest ih =>
    intro k i res h
    simp only [routeScan] at h
    split at h
    · exact Nat.le_of_succ_le (ih (k + 1) i res h)
    · split at h
      · exact Nat.le_of_succ_le (ih (k + 1) i res h)
      · split at h
        · exact Nat.le_of_succ_le (ih (k + 1) i res h)
        · simp only [Option.some.injEq, Prod.mk.injEq] at h
          exact Nat.le_of_eq h.1

/-- A route failing any of the three checks is skipped: the loop continues
on the remaining routes with the next index. -/
theorem routeScan_cons_skip (recoverPanic : Bool) (reqMethod requestPath : String)
    (route : Route) (rest : List Route) (k : Nat)
    (h : methodSkipped reqMethod route.method = true ∨
      route.cr.matchString requestPath = false ∨
      goLen ((route.cr.findStringSubmatch requestPath).headD "") ≠ goLen requestPath) :
    routeScan recoverPanic reqMethod requestPath k (route :: rest) =
      routeScan recoverPanic reqMethod requestPath (k + 1) rest := by
  by_cases hm : methodSkipped reqMethod route.method = true
  · simp [routeScan, hm]
  · have hm' : methodSkipped reqMethod route.method = false := by
      cases hmv : methodSkipped reqMethod route.method
      · rfl
      · exact absurd hmv hm
    by_cases hmt : route.cr.matchString requestPath = true
    · have hlen : goLen ((route.cr.findStringSubmatch requestPath).headD "") ≠ goLen requestPath := by
        rcases h with h | h | h
        · exact absurd h hm
        · rw [hmt] at h
          cases h
        · exact h
      have hlen2 : goLen ((route.cr.findStringSubmatch requestPath).head?.getD "") ≠ goLen requestPath := by
        rw [← List.headD_eq_head?_getD]
        exact hlen
      simp [routeScan, hm', hmt, hlen2]
    · have hmt' : route.cr.matchString requestPath = false := by
        cases hv : route.cr.matchString requestPath
        · rfl
        · exact absurd hv hmt
      simp [routeScan, hm', hmt']

/-- A route passing all three checks is invoked, and the loop reports the
index at which it stood. -/
theorem routeScan_cons_dispatch (recoverPanic : Bool) (reqMethod requestPath : String)
    (route : Route) (rest : List Route) (k : Nat)
    (hm : methodSkipped reqMethod route.method = false)
    (hmatch : route.cr.matchString requestPath = true)
    (hlen : goLen ((route.cr.findStringSubmatch requestPath).headD "") = goLen requestPath) :
    routeScan recoverPanic reqMethod requestPath k (route :: rest) =
      some (k, invokeRoute recoverPanic route (route.cr.findStringSubmatch requestPath)) := by
  have hlen2 : goLen ((route.cr.findStringSubmatch requestPath).head?.getD "") = goLen requestPath := by
    rw [← List.headD_eq_head?_getD]
    exact hlen
  simp [routeScan, hm, hmatch, hlen2]

/-- Values of neither string nor byte-slice kind coerce to the empty
payload. -/
theorem coerceContent_other (v : GoValue) (hs : ∀ s, v ≠ GoValue.str s)
    (hb : ∀ b, v ≠ GoValue.bytes b) : coerceContent v = [] := by
  cases v with
  | str s => exact absurd rfl (hs s)
  | bytes b => exact absurd rfl (hb b)
  | ctxRef => rfl
  | other n => rfl

/-! The claim theorems. -/

/-- C1: the Matcher accepts a route only when the pattern matches the whole
request path. Whenever the first submatch of a route is shorter or longer
than the request path — the pattern matched only a strict prefix, suffix or
internal substring of it — the route is skipped and the scan continues with
the remaining routes; and when the loop dispatches the route at the front,
the pattern matched with a first submatch of exactly the length of the
path. -/
theorem c1_full_path_match (recoverPanic : Bool) (reqMethod requestPath : String)
    (route : Route) (rest : List Route) (k : Nat) :
    (route.cr.matchString requestPath = true →
      goLen ((route.cr.findStringSubmatch requestPath).headD "") ≠ goLen requestPath →
      routeScan recoverPanic reqMethod requestPath k (route :: rest) =
        routeScan recoverPanic reqMethod requestPath (k + 1) rest) ∧
    (∀ res, routeScan recoverPanic reqMethod requestPath k (route :: rest) = some (k, res) →
      route.cr.matchString requestPath = true ∧
      goLen ((route.cr.findStringSubmatch requestPath).headD "") = goLen requestPath ∧
      res = invokeRoute recoverPanic route (route.cr.findStringSubmatch requestPath)) := by
  constructor
  · intro hmatch hlen
    exact routeScan_cons_skip recoverPanic reqMethod requestPath route rest k
      (Or.inr (Or.inr hlen))
  · intro res h
    by_cases hm : methodSkipped reqMethod route.method = true
    · rw [routeScan_cons_skip recoverPanic reqMethod requestPath route rest k (Or.inl hm)] at h
      have := routeScan_index_ge recoverPanic reqMethod requestPath rest (k + 1) k res h
      omega
    · have hm' : methodSkipped reqMethod route.method = false := by
        cases hmv : methodSkipped reqMethod route.method
        · rfl
        · exact absurd hmv hm
      by_cases hmt : route.cr.matchString requestPath = true
      · by_cases hlen : goLen ((route.cr.findStringSubmatch requestPath).headD "") = goLen requestPath
        · rw [routeScan_cons_dispatch recoverPanic reqMethod requestPath route rest k
            hm' hmt hlen] at h
          simp only [Option.some.injEq, Prod.mk.injEq] at h
          exact ⟨hmt, hlen, h.2.symm⟩
        · rw [routeScan_cons_skip recoverPanic reqMethod requestPath route rest k
            (Or.inr (Or.inr hlen))] at h
          have := routeScan_index_ge recoverPanic reqMethod requestPath rest (k + 1) k res h
          omega
      · have hmt' : route.cr.matchString requestPath = false := by
          cases hv : route.cr.matchString requestPath
          · rfl
          · exact absurd hv hmt
        rw [routeScan_cons_skip recoverPanic reqMethod requestPath route rest k
          (Or.inr (Or.inl hmt'))] at h
        have := routeScan_index_ge recoverPanic reqMethod requestPath rest (k + 1) k res h
        omega

/-- C1 witness: the prefix-only pattern "/hel" matches inside "/hello" but
its first submatch is shorter than the path, so the route is skipped and a
one-route table yields no match. -/
theorem c1_witness :
    prefRoute.cr.matchString "/hello" = true ∧
    goLen ((prefRoute.cr.findStringSubmatch "/hello").headD "") ≠ goLen "/hello" ∧
    routeScan true "GET" "/hello" 0 [prefRoute] = routeScan true "GET" "/hello" 1 [] :=
  ⟨by decide, by decide,
    (c1_full_path_match true "GET" "/hello" prefRoute [] 0).1 (by decide) (by decide)⟩

/-- C2: registration order is the only priority signal. When every route
before `r1` fails its method check or its full-path-match check and `r1`
passes both, the scan dispatches `r1` and reports its position — whatever
routes (however specific) stand after it. -/
theorem c2_first_route_wins (recoverPanic : Bool) (reqMethod requestPath : String)
    (pre : List Route) (r1 : Route) (rest : List Route) (k : Nat)
    (hpre : ∀ q ∈ pre, methodSkipped reqMethod q.method = true ∨
      q.cr.matchString requestPath = false ∨
      goLen ((q.cr.findStringSubmatch requestPath).headD "") ≠ goLen requestPath)
    (hm : methodSkipped reqMethod r1.method = false)
    (hmatch : r1.cr.matchString requestPath = true)
    (hlen : goLen ((r1.cr.findStringSubmatch requestPath).headD "") = goLen requestPath) :
    routeScan recoverPanic reqMethod requestPath k (pre ++ r1 :: rest) =
      some (k + pre.length,
        invokeRoute recoverPanic r1 (r1.cr.findStringSubmatch requestPath)) := by
  induction pre generalizing k with
  | nil =>
    simpa using routeScan_cons_dispatch recoverPanic reqMethod requestPath r1 rest k
      hm hmatch hlen
  | cons q pre ih =>
    rw [List.cons_append, routeScan_cons_skip recoverPanic reqMethod requestPath q
      (pre ++ r1 :: rest) k (hpre q (List.mem_cons_self q pre))]
    rw [ih (k + 1) (fun p hp => hpre p (List.mem_cons_of_mem q hp))]
    have harith : k + 1 + pre.length = k + (q :: pre).length := by
      simp only [List.length_cons]
      omega
    rw [harith]

/-- C2 witness, the scenario from the specification: the catch-all route is
registered before the more specific "/specific" route (after a POST route
that fails the method check); the request GET /specific is dispatched to
the catch-all route at position 1. -/
theorem c2_witness :
    (∀ q ∈ [postHelloRoute], methodSkipped "GET" q.method = true ∨
      q.cr.matchString "/specific" = false ∨
      goLen ((q.cr.findStringSubmatch "/specific").headD "") ≠ goLen "/specific") ∧
    methodSkipped "GET" catchAllRoute.method = false ∧
    catchAllRoute.cr.matchString "/specific" = true ∧
    goLen ((catchAllRoute.cr.findStringSubmatch "/specific").headD "") = goLen "/specific" ∧
    routeScan true "GET" "/specific" 0 ([postHelloRoute] ++ catchAllRoute :: [specificRoute]) =
      some (0 + [postHelloRoute].length,
        invokeRoute true catchAllRoute (catchAllRoute.cr.findStringSubmatch "/specific")) :=
  ⟨by
    intro q hq
    simp only [List.mem_singleton] at hq
    subst hq
    exact Or.inl (by decide),
   by decide, by decide, by decide,
   c2_first_route_wins true "GET" "/specific" [postHelloRoute] catchAllRoute [specificRoute] 0
    (by
      intro q hq
      simp only [List.mem_singleton] at hq
      subst hq
      exact Or.inl (by decide))
    (by decide) (by decide) (by decide)⟩

/-- C3: the method condition. A route survives the method check exactly
when the request method equals the route method, or the request method is
HEAD and the route method is GET; a route failing the check is skipped and
the scan continues. In particular HEAD matches a GET route and GET never
matches a HEAD-only route. -/
theorem c3_method_condition (recoverPanic : Bool)
    (reqMethod requestPath routeMethod : String)
    (route : Route) (rest : List Route) (k : Nat) :
    (methodSkipped reqMethod routeMethod = false ↔
      (reqMethod = routeMethod ∨ (reqMethod = "HEAD" ∧ routeMethod = "GET"))) ∧
    (methodSkipped reqMethod route.method = true →
      routeScan recoverPanic reqMethod requestPath k (route :: rest) =
        routeScan recoverPanic reqMethod requestPath (k + 1) rest) ∧
    methodSkipped "HEAD" "GET" = false ∧
    methodSkipped "GET" "HEAD" = true := by
  refine ⟨?_, ?_, by decide, by decide⟩
  · simp only [methodSkipped, Bool.and_eq_false_iff, bne_eq_false_iff_eq,
      Bool.not_eq_false', Bool.and_eq_true, beq_iff_eq]
  · intro hm
    exact routeScan_cons_skip recoverPanic reqMethod requestPath route rest k (Or.inl hm)

/-- C3 witness: a POST request skips the GET hello route; HEAD passes the
check against a GET route while GET fails it against a HEAD route. -/
theorem c3_witness :
    methodSkipped "POST" helloRoute.method = true ∧
    routeScan true "POST" "/hello/world" 0 [helloRoute] =
      routeScan true "POST" "/hello/world" 1 [] ∧
    methodSkipped "HEAD" "GET" = false ∧
    methodSkipped "GET" "HEAD" = true :=
  ⟨by decide,
   (c3_method_condition true "POST" "/hello/world" "GET" helloRoute [] 0).2.1 (by decide),
   (c3_method_condition true "HEAD" "/x" "GET" helloRoute [] 0).2.2.1,
   (c3_method_condition true "GET" "/x" "HEAD" helloRoute [] 0).2.2.2⟩

/-- C4: argument assembly. A handler is context-aware exactly when its
declared parameter list begins with a pointer to the context type itself —
no parameters, a non-pointer first parameter, or a pointer to any other
type all fail the test; the context reference is prepended exactly in that
case, and the capture groups `match[1:]` follow in left-to-right order as
individual string values with no coercion. -/
theorem c4_argument_binding (ht : HandlerType) (mtch : List String) :
    (requiresContext ht = true ↔ ∃ rest, ht.params = GoType.ptr GoType.context :: rest) ∧
    (requiresContext ht = true →
      bindArgs ht mtch = GoValue.ctxRef :: (mtch.drop 1).map GoValue.str) ∧
    (requiresContext ht = false →
      bindArgs ht mtch = (mtch.drop 1).map GoValue.str) := by
  refine ⟨?_, ?_, ?_⟩
  · cases ht with
    | mk params =>
      cases params with
      | nil => simp [requiresContext]
      | cons a0 rest =>
        cases a0 with
        | context => simp [requiresContext]
        | ptr e =>
          simp only [requiresContext, decide_eq_true_eq]
          constructor
          · intro h
            exact ⟨rest, by rw [h]⟩
          · intro hex
            obtain ⟨r2, hr⟩ := hex
            cases hr
            rfl
        | other n => simp [requiresContext]
  · intro h
    simp [bindArgs, h]
  · intro h
    simp [bindArgs, h]

/-- C4 witness: a handler declared `func(*Context, string)` receives the
context reference followed by the capture "world"; a plain handler receives
only the capture. -/
theorem c4_witness :
    requiresContext ctxStringType = true ∧
    bindArgs ctxStringType ["/hello/world", "world"] =
      GoValue.ctxRef :: (["/hello/world", "world"].drop 1).map GoValue.str ∧
    requiresContext plainStringType = false ∧
    bindArgs plainStringType ["/hello/world", "world"] =
      (["/hello/world", "world"].drop 1).map GoValue.str :=
  ⟨by decide,
   (c4_argument_binding ctxStringType ["/hello/world", "world"]).2.1 (by decide),
   by decide,
   (c4_argument_binding plainStringType ["/hello/world", "world"]).2.2 (by decide)⟩

/-- C5: route registration. When the pattern does not compile, the route
table comes back completely unchanged and nothing is raised to the caller;
when it compiles, exactly one new route record is appended at the end with
every previously registered route left in place — unconditionally, with no
deduplication and no inspection of the handler. -/
theorem c5_addRoute (compile : String → Option Regex) (routes : List Route)
    (r method : String) (handler : Handler) :
    (compile r = none → addRoute compile routes r method handler = routes) ∧
    (∀ cr, compile r = some cr →
      addRoute compile routes r method handler =
        routes ++ [{ r := r, cr := cr, method := method, handler := handler }]) := by
  constructor
  · intro h
    simp [addRoute, h]
  · intro cr h
    simp [addRoute, h]

/-- C5 witness: registering the non-compiling pattern "(" leaves the
one-route table unchanged; registering "/x" appends exactly one route at
the end. -/
theorem c5_witness :
    compileOracle "(" = none ∧
    addRoute compileOracle [helloRoute] "(" "GET" echoHandler = [helloRoute] ∧
    compileOracle "/x" = some catchAllRegex ∧
    addRoute compileOracle [helloRoute] "/x" "GET" echoHandler =
      [helloRoute] ++ [{ r := "/x", cr := catchAllRegex, method := "GET", handler := echoHandler }] :=
  ⟨rfl,
   (c5_addRoute compileOracle [helloRoute] "(" "GET" echoHandler).1 rfl,
   rfl,
   (c5_addRoute compileOracle [helloRoute] "/x" "GET" echoHandler).2 catchAllRegex rfl⟩

/-- C6: fault containment. When the call of the dispatched route faults,
the Safe Invoker reports a recovered fault with a nil result slice under
the RecoverPanic policy, so the scan ends in the 500 abort with body
"Server Error" without trying any later route; with the policy disabled the
fault escapes the dispatch uncontained. -/
theorem c6_fault_containment (route : Route) (rest : List Route) (k : Nat)
    (reqMethod requestPath e : String)
    (hfault : route.handler.call
        (bindArgs route.handler.type (route.cr.findStringSubmatch requestPath)) =
      CallOutcome.fault e)
    (hm : methodSkipped reqMethod route.method = false)
    (hmatch : route.cr.matchString requestPath = true)
    (hlen : goLen ((route.cr.findStringSubmatch requestPath).headD "") = goLen requestPath) :
    safelyCall true route.handler
        (bindArgs route.handler.type (route.cr.findStringSubmatch requestPath)) =
      SafeCallResult.recovered e ∧
    safelyCall false route.handler
        (bindArgs route.handler.type (route.cr.findStringSubmatch requestPath)) =
      SafeCallResult.propagated e ∧
    routeScan true reqMethod requestPath k (route :: rest) =
      some (k, DispatchResult.aborted 500 "Server Error") ∧
    routeScan false reqMethod requestPath k (route :: rest) =
      some (k, DispatchResult.escaped e) := by
  refine ⟨by simp [safelyCall, hfault], by simp [safelyCall, hfault], ?_, ?_⟩
  · rw [routeScan_cons_dispatch true reqMethod requestPath route rest k hm hmatch hlen]
    simp [invokeRoute, safelyCall, hfault]
  · rw [routeScan_cons_dispatch false reqMethod requestPath route rest k hm hmatch hlen]
    simp [invokeRoute, safelyCall, hfault]

/-- C6 witness: a crashing handler on a matching GET route produces the 500
"Server Error" abort with recovery enabled, and an escaped fault with
recovery disabled, in both cases without scanning further. -/
theorem c6_witness :
    crashRoute.handler.call
        (bindArgs crashRoute.handler.type (crashRoute.cr.findStringSubmatch "/boom")) =
      CallOutcome.fault "boom" ∧
    routeScan true "GET" "/boom" 0 [crashRoute] =
      some (0, DispatchResult.aborted 500 "Server Error") ∧
    routeScan false "GET" "/boom" 0 [crashRoute] =
      some (0, DispatchResult.escaped "boom") :=
  ⟨rfl,
   (c6_fault_containment crashRoute [] 0 "GET" "/boom" "boom" rfl
     (by decide) rfl (by decide)).2.2.1,
   (c6_fault_containment crashRoute [] 0 "GET" "/boom" "boom" rfl
     (by decide) rfl (by decide)).2.2.2⟩

/-- C7: string and byte-slice responses. A dispatched handler whose first
return value is a string writes exactly the UTF-8 bytes of that string and
announces their count — the Go byte length of the string, not its character
count — as the content length; a byte-slice return is written through
unchanged with its length announced. -/
theorem c7_string_response (recoverPanic : Bool) (routeS routeB : Route)
    (mtchS mtchB : List String) (s : String) (b : List Nat)
    (extraS extraB : List GoValue)
    (hs : routeS.handler.call (bindArgs routeS.handler.type mtchS) =
      CallOutcome.ok (GoValue.str s :: extraS))
    (hb : routeB.handler.call (bindArgs routeB.handler.type mtchB) =
      CallOutcome.ok (GoValue.bytes b :: extraB)) :
    invokeRoute recoverPanic routeS mtchS =
      DispatchResult.wroteBody (strBytes s).length (strBytes s) ∧
    (strBytes s).length = goLen s ∧
    invokeRoute recoverPanic routeB mtchB = DispatchResult.wroteBody b.length b := by
  refine ⟨?_, strBytes_length s, ?_⟩
  · simp [invokeRoute, safelyCall, hs, coerceContent]
  · simp [invokeRoute, safelyCall, hb, coerceContent]

/-- C7 witness: the handler returning the multi-byte string "héllo" writes
its six UTF-8 bytes with content length 6, although the string has only
five characters; the byte-slice handler writes its three bytes through. -/
theorem c7_witness :
    unicodeRoute.handler.call (bindArgs unicodeRoute.handler.type ["/u", "u"]) =
      CallOutcome.ok (GoValue.str "héllo" :: []) ∧
    invokeRoute true unicodeRoute ["/u", "u"] =
      DispatchResult.wroteBody (strBytes "héllo").length (strBytes "héllo") ∧
    (strBytes "héllo").length = goLen "héllo" ∧
    goLen "héllo" = 6 ∧
    String.length "héllo" = 5 ∧
    invokeRoute true bytesRoute ["/u", "u"] =
      DispatchResult.wroteBody (List.length [1, 2, 3]) [1, 2, 3] :=
  ⟨rfl,
   (c7_string_response true unicodeRoute bytesRoute ["/u", "u"] ["/u", "u"]
     "héllo" [1, 2, 3] [] [] rfl rfl).1,
   (c7_string_response true unicodeRoute bytesRoute ["/u", "u"] ["/u", "u"]
     "héllo" [1, 2, 3] [] [] rfl rfl).2.1,
   by decide, by decide,
   (c7_string_response true unicodeRoute bytesRoute ["/u", "u"] ["/u", "u"]
     "héllo" [1, 2, 3] [] [] rfl rfl).2.2⟩

/-- C8: degenerate returns. A dispatched handler with no return values
causes no further write at all — no body and no Content-Length header; one
whose first return value is neither a string nor a byte slice yields,
without raising any error, the empty payload with content length 0. -/
theorem c8_degenerate_returns (recoverPanic : Bool) (routeN routeO : Route)
    (mtchN mtchO : List String) (v : GoValue) (extra : List GoValue)
    (hn : routeN.handler.call (bindArgs routeN.handler.type mtchN) = CallOutcome.ok [])
    (ho : routeO.handler.call (bindArgs routeO.handler.type mtchO) =
      CallOutcome.ok (v :: extra))
    (hvs : ∀ s, v ≠ GoValue.str s) (hvb : ∀ b, v ≠ GoValue.bytes b) :
    invokeRoute recoverPanic routeN mtchN = DispatchResult.wroteNothing ∧
    invokeRoute recoverPanic routeO mtchO = DispatchResult.wroteBody 0 [] := by
  constructor
  · simp [invokeRoute, safelyCall, hn]
  · simp [invokeRoute, safelyCall, ho, coerceContent_other v hvs hvb]

/-- C8 witness: the handler with no return values writes nothing further;
the handler returning an int first writes the empty payload with content
length 0 and no error. -/
theorem c8_witness :
    silentRoute.handler.call (bindArgs silentRoute.handler.type ["/x", "x"]) =
      CallOutcome.ok [] ∧
    intRoute.handler.call (bindArgs intRoute.handler.type ["/x", "x"]) =
      CallOutcome.ok (GoValue.other 7 :: [GoValue.str "ignored"]) ∧
    invokeRoute true silentRoute ["/x", "x"] = DispatchResult.wroteNothing ∧
    invokeRoute true intRoute ["/x", "x"] = DispatchResult.wroteBody 0 [] :=
  ⟨rfl, rfl,
   (c8_degenerate_returns true silentRoute intRoute ["/x", "x"] ["/x", "x"]
     (GoValue.other 7) [GoValue.str "ignored"] rfl rfl
     (by intro s h; cases h) (by intro b h; cases h)).1,
   (c8_degenerate_returns true silentRoute intRoute ["/x", "x"] ["/x", "x"]
     (GoValue.other 7) [GoValue.str "ignored"] rfl rfl
     (by intro s h; cases h) (by intro b h; cases h)).2⟩

/-- C9: the 404 terminal. When no registered route passes both the method
check and the full-path-match check, and the static resolver serves neither
the request path nor the index.html or index.htm fallback names, dispatch
ends in the 404 abort with body "Page not found". For a request method
other than GET and HEAD the resolver is never consulted: any resolver
whatsoever yields the same 404 abort. -/
theorem c9_not_found (cfg : ServerConfig) (env : Collaborators)
    (routes : List Route) (req : Request)
    (hscan : routeScan cfg.recoverPanic req.method req.path 0 routes = none) :
    ((req.method = "GET" ∨ req.method = "HEAD") →
      env.tryServingFile req.path = false →
      env.tryServingFile (pathJoin req.path "index.html") = false →
      env.tryServingFile (pathJoin req.path "index.htm") = false →
      routeHandler cfg env routes req = DispatchResult.aborted 404 "Page not found") ∧
    (req.method ≠ "GET" → req.method ≠ "HEAD" →
      routeHandler cfg env routes req = DispatchResult.aborted 404 "Page not found") := by
  constructor
  · intro hmethod hfile hhtml hhtm
    rcases hmethod with hm | hm
    · rw [hm] at hscan
      simp [routeHandler, hm, hfile, hhtml, hhtm, hscan]
    · rw [hm] at hscan
      simp [routeHandler, hm, hfile, hhtml, hhtm, hscan]
  · intro h1 h2
    have g1 : (req.method == "GET") = false := beq_eq_false_iff_ne.mpr h1
    have g2 : (req.method == "HEAD") = false := beq_eq_false_iff_ne.mpr h2
    simp [routeHandler, g1, g2, hscan]

/-- C9 witness: with no routes and a resolver that serves nothing, GET
/missing aborts with 404 "Page not found"; a POST request aborts with 404
even under a resolver that would serve every name. -/
theorem c9_witness :
    routeScan true "GET" "/missing" 0 [] = none ∧
    routeHandler { recoverPanic := true } noFiles [] { method := "GET", path := "/missing" } =
      DispatchResult.aborted 404 "Page not found" ∧
    routeHandler { recoverPanic := true } allFiles [] { method := "POST", path := "/missing" } =
      DispatchResult.aborted 404 "Page not found" :=
  ⟨rfl,
   (c9_not_found { recoverPanic := true } noFiles []
     { method := "GET", path := "/missing" } rfl).1 (Or.inl rfl) rfl rfl rfl,
   (c9_not_found { recoverPanic := true } allFiles []
     { method := "POST", path := "/missing" } rfl).2 (by decide) (by decide)⟩

/-- C10: only the first return value shapes the response. A dispatched
handler returning one or more values produces the body and content length
of the coercion of the head value alone; the remaining return values appear
nowhere in the outcome. -/
theorem c10_extra_returns_ignored (recoverPanic : Bool) (route : Route)
    (mtch : List String) (v : GoValue) (extra : List GoValue)
    (h : route.handler.call (bindArgs route.handler.type mtch) =
      CallOutcome.ok (v :: extra)) :
    invokeRoute recoverPanic route mtch =
      DispatchResult.wroteBody (coerceContent v).length (coerceContent v) := by
  simp [invokeRoute, safelyCall, h]

/-- C10 witness: the two-value handler responds exactly as the head string
"first" dictates; the trailing int value has no effect. -/
theorem c10_witness :
    twoValueRoute.handler.call (bindArgs twoValueRoute.handler.type ["/x", "x"]) =
      CallOutcome.ok (GoValue.str "first" :: [GoValue.other 3]) ∧
    invokeRoute true twoValueRoute ["/x", "x"] =
      DispatchResult.wroteBody (coerceContent (GoValue.str "first")).length
        (coerceContent (GoValue.str "first")) :=
  ⟨rfl,
   c10_extra_returns_ignored true twoValueRoute ["/x", "x"] (GoValue.str "first")
     [GoValue.other 3] rfl⟩

end WebGo
